import Mathlib

/-!
Formal model of the SMART-2 CVD risk calculator (`cvd_risk_app.py`).

The script computes a baseline 10-year recurrent-CVD risk from a linear
predictor and a constant-hazard survival transform
(`calculate_smart2_risk`, lines 53-80), composes additive relative-risk
reductions from the selected therapies (`rr_reduction`, lines 159-169),
projects the treated risk (line 171), and classifies the projected risk
into a tier with recommendations (lines 207-230).

Numeric inputs are modelled as rationals and the survival transform over
the reals with `Real.exp`.  `round(x, 1)` from line 80 is modelled as
half-up rounding to one decimal; none of the concrete values settled
below falls on a rounding tie, so the tie-breaking mode is immaterial.
-/

namespace CVD

/-- Sex of the patient, from the radio widget offering Male and Female (line 96). -/
inductive Sex | male | female
deriving DecidableEq

/-- Statin intensity, from the radio widget offering None, Moderate, High (line 135). -/
inductive Statin | none | moderate | high
deriving DecidableEq

/-- Risk tier displayed by the recommendation block (lines 207-230). -/
inductive Tier | moderate | high | veryHigh
deriving DecidableEq

/-- Patient inputs consumed by `calculate_smart2_risk` (widget section, lines 95-127). -/
structure Profile where
  age : ℚ
  sex : Sex
  diabetes : Bool
  smoker : Bool
  egfr : ℚ
  vasc_count : ℕ
  ldl : ℚ
  sbp : ℚ
deriving DecidableEq

/-- Therapy inputs consumed by the treatment-effect block (lines 135-142):
statin radio, ezetimibe checkbox, PCSK9i checkbox, target-SBP slider. -/
structure Plan where
  statin : Statin
  ezetimibe : Bool
  pcsk9i : Bool
  sbp_target : ℚ
deriving DecidableEq

/-- Coefficient `egfr<30` of the dict in `calculate_smart2_risk` (line 61):
`0.9235 if egfr < 30 else 0`. -/
def egfr_lt30_coef (egfr : ℚ) : ℚ := if egfr < 30 then 0.9235 else 0

/-- Coefficient `egfr30-60` (line 62): `0.5539 if 30 <= egfr < 60 else 0`. -/
def egfr_30_60_coef (egfr : ℚ) : ℚ := if 30 ≤ egfr ∧ egfr < 60 then 0.5539 else 0

/-- The linear predictor `lp` of `calculate_smart2_risk` (lines 55-77).
Booleans multiply their coefficient as 0/1 exactly as in the Python code. -/
def lp (p : Profile) : ℚ :=
  -8.1937
    + 0.0635 * (p.age - 60)
    + (if p.sex = Sex.female then -0.3372 else 0)
    + (if p.diabetes then 0.5034 else 0)
    + (if p.smoker then 0.7862 else 0)
    + egfr_lt30_coef p.egfr
    + egfr_30_60_coef p.egfr
    + (if 2 ≤ p.vasc_count then 0.5434 else 0)
    + 0.2436 * (p.ldl - 2.5)
    + 0.0083 * (p.sbp - 120)

/-- `risk_percent = 100 * (1 - np.exp(-np.exp(lp) * 10))` (line 79). -/
noncomputable def risk_percent (p : Profile) : ℝ :=
  100 * (1 - Real.exp (-Real.exp ((lp p : ℝ)) * 10))

/-- One-decimal rounding of a real, modelling Python `round(x, 1)` (line 80). -/
noncomputable def round1R (x : ℝ) : ℚ := (⌊x * 10 + 1 / 2⌋ : ℚ) / 10

/-- `calculate_smart2_risk` (lines 53-80): the rounded baseline risk percentage. -/
noncomputable def calculate_smart2_risk (p : Profile) : ℚ := round1R (risk_percent p)

/-- Statin contribution to `rr_reduction` (lines 160-163). -/
def statin_contrib (s : Statin) : ℚ :=
  match s with
  | Statin.none => 0
  | Statin.moderate => 25
  | Statin.high => 35

/-- PCSK9 inhibitor contribution to `rr_reduction` (lines 166-167): it depends
only on the checkbox value, with no condition on ldl. -/
def pcsk9_contrib (plan : Plan) : ℚ := if plan.pcsk9i then 15 else 0

/-- `rr_reduction` (lines 159-169): additive relative-risk-reduction percentage. -/
def rr_reduction (plan : Plan) : ℚ :=
  statin_contrib plan.statin
    + (if plan.ezetimibe then 6 else 0)
    + pcsk9_contrib plan
    + (if plan.sbp_target < 130 then 15 else 0)

/-- `projected_risk = baseline_risk * (1 - rr_reduction/100)` (line 171). -/
def projected_risk (b : ℚ) (plan : Plan) : ℚ := b * (1 - rr_reduction plan / 100)

/-- One-decimal rounding of a rational, modelling the `.1f` format used when
the projected risk is displayed (line 186). -/
def round1q (x : ℚ) : ℚ := (⌊x * 10 + 1 / 2⌋ : ℚ) / 10

/-- The projected-risk value the app reports: line 186 renders
`projected_risk` with the `.1f` format. -/
def projected_display (b : ℚ) (plan : Plan) : ℚ := round1q (projected_risk b plan)

/-- Recommendation list of the Very High branch (lines 208-214). -/
def very_high_recs : List String :=
  ["Intensive lipid lowering (target LDL <1.4 mmol/L)",
   "Consider PCSK9 inhibitor if LDL remains elevated",
   "Multidisciplinary risk factor management"]

/-- Recommendation list of the High branch (lines 216-222). -/
def high_recs : List String :=
  ["Optimize statin therapy (high-intensity preferred)",
   "Target SBP <130 mmHg if tolerated",
   "Address all modifiable risk factors"]

/-- Recommendation list of the Moderate branch (lines 224-230). -/
def moderate_recs : List String :=
  ["Maintain adherence to current therapies",
   "Focus on lifestyle interventions",
   "Annual risk reassessment"]

/-- The recommendation block (lines 207-230): tier and list from the
`if projected_risk > 30 / elif > 20 / else` ladder. -/
def classify_recs (pr : ℚ) : Tier × List String :=
  if pr > 30 then (Tier.veryHigh, very_high_recs)
  else if pr > 20 then (Tier.high, high_recs)
  else (Tier.moderate, moderate_recs)

/-- The tier component of the recommendation block. -/
def classify (pr : ℚ) : Tier := (classify_recs pr).1

/-- The PCSK9i checkbox is rendered disabled exactly when ldl < 1.8 (line 139);
this is the only place the ldl precondition appears in the script. -/
def pcsk9_widget_disabled (ldl : ℚ) : Bool := ldl < 1.8

/-- The RRR formula exactly as claim C3 words it: additive contributions with
the ldl ≥ 1.8 precondition on the PCSK9i term, clamped into [0,100]. -/
def rrr_claimed (plan : Plan) (ldl : ℚ) : ℚ :=
  min 100 (max 0 (statin_contrib plan.statin
    + (if plan.ezetimibe then 6 else 0)
    + (if plan.pcsk9i ∧ 1.8 ≤ ldl then 15 else 0)
    + (if plan.sbp_target < 130 then 15 else 0)))

/-- The amended RRR formula: the same additive contributions but with the
PCSK9i term counted unconditionally, clamped into [0,100]. -/
def rrr_amended (plan : Plan) : ℚ :=
  min 100 (max 0 (statin_contrib plan.statin
    + (if plan.ezetimibe then 6 else 0)
    + (if plan.pcsk9i then 15 else 0)
    + (if plan.sbp_target < 130 then 15 else 0)))

/-- The projected risk exactly as claim C4 words it: `b * (1 - r/100)` rounded
to one decimal and then clamped into [0, b]. -/
def projected_claimed (b r : ℚ) : ℚ := max 0 (min (round1q (b * (1 - r / 100))) b)

/-- The spec `egfrBand` step function: 0.9235 below 30, else 0.5539 below 60, else 0. -/
def egfrBand (egfr : ℚ) : ℚ :=
  if egfr < 30 then 0.9235 else if egfr < 60 then 0.5539 else 0

/-- The documented input domains of the spec data model (spec section 3). -/
def validate (p : Profile) : Prop :=
  30 ≤ p.age ∧ p.age ≤ 90 ∧ 15 ≤ p.egfr ∧ p.egfr ≤ 120 ∧ p.vasc_count ≤ 3 ∧
    0.5 ≤ p.ldl ∧ p.ldl ≤ 6 ∧ 80 ≤ p.sbp ∧ p.sbp ≤ 220

instance (p : Profile) : Decidable (validate p) := by
  unfold validate
  infer_instance

/-- Range accepted by the age number-input widget (line 95). -/
def age_widget_ok (a : ℚ) : Prop := 30 ≤ a ∧ a ≤ 90

/-- Range accepted by the LDL number-input widget (line 115). -/
def ldl_widget_ok (l : ℚ) : Prop := 0.5 ≤ l ∧ l ≤ 6.0

/-- Scenario B profile: age 80, male, diabetic, smoker, egfr 25, 3 vascular
beds, ldl 5.0, sbp 180. -/
def profileB : Profile := ⟨80, Sex.male, true, true, 25, 3, 5, 180⟩

/-- Scenario B therapy plan with a given target-SBP slider value. -/
def planB (t : ℚ) : Plan := ⟨Statin.high, true, true, t⟩

/-- A profile with ldl = 1.5, below the PCSK9i threshold. -/
def profileLowLdl : Profile := ⟨65, Sex.male, false, false, 60, 0, 1.5, 140⟩

/-- A plan with only the PCSK9 inhibitor selected (target SBP 200, not below 130). -/
def planPcsk9Only : Plan := ⟨Statin.none, false, true, 200⟩

/-- An out-of-domain profile: age 25 (below the documented minimum of 30). -/
def profile25 : Profile := ⟨25, Sex.male, false, false, 60, 0, 3, 140⟩

/-- Line 105 of `cvd_risk_app.py`, verbatim. -/
def source_line_105 : String := "    bmi = round(weight / ((height/100)**2, 1)"

/-- Parenthesis weight of one character. -/
def parenDelta (c : Char) : Int := if c = '(' then 1 else if c = ')' then -1 else 0

/-- Net count of unmatched round parentheses in a string; a syntactically
complete Python statement must have net count 0. -/
def netParens (s : String) : Int := s.data.foldl (fun a c => a + parenDelta c) 0

/-! ### Numeric bounds on the survival transform -/

lemma exp_0602_lb : (1.0620483 : ℝ) ≤ Real.exp 0.0602 := by
  have h := Real.sum_le_exp_of_nonneg (show (0:ℝ) ≤ 0.0602 by norm_num) 4
  simp only [Finset.sum_range_succ, Finset.sum_range_zero] at h
  norm_num [Nat.factorial] at h
  linarith

lemma exp_0602_ub : Real.exp 0.0602 ≤ 1.0620491 := by
  have h := Real.exp_bound' (show (0:ℝ) ≤ 0.0602 by norm_num)
    (show (0.0602:ℝ) ≤ 1 by norm_num) (show 0 < 4 by norm_num)
  simp only [Finset.sum_range_succ, Finset.sum_range_zero] at h
  norm_num [Nat.factorial] at h
  linarith

lemma exp_30602_eq : Real.exp 3.0602 = Real.exp 1 ^ 3 * Real.exp 0.0602 := by
  rw [← Real.exp_nat_mul, ← Real.exp_add]
  norm_num

lemma exp_30602_lb : (21.33179 : ℝ) ≤ Real.exp 3.0602 := by
  rw [exp_30602_eq]
  have h1 : (2.7182818283:ℝ) ^ 3 ≤ Real.exp 1 ^ 3 :=
    pow_le_pow_left₀ (by norm_num) (le_of_lt Real.exp_one_gt_d9) 3
  have h2 := exp_0602_lb
  nlinarith [Real.exp_pos (1:ℝ), Real.exp_pos (0.0602:ℝ)]

lemma exp_30602_ub : Real.exp 3.0602 ≤ 21.33184 := by
  rw [exp_30602_eq]
  have h1 : Real.exp 1 ^ 3 ≤ (2.7182818286:ℝ) ^ 3 :=
    pow_le_pow_left₀ (le_of_lt (Real.exp_pos 1)) (le_of_lt Real.exp_one_lt_d9) 3
  have h2 := exp_0602_ub
  nlinarith [Real.exp_pos (1:ℝ), Real.exp_pos (0.0602:ℝ), exp_0602_lb]

lemma exp_neg_30602_lb : (0.0468781 : ℝ) ≤ Real.exp (-3.0602) := by
  rw [show (-3.0602:ℝ) = -(3.0602) by norm_num, Real.exp_neg]
  have h := inv_anti₀ (Real.exp_pos 3.0602) exp_30602_ub
  calc (0.0468781:ℝ) ≤ (21.33184:ℝ)⁻¹ := by norm_num
  _ ≤ (Real.exp 3.0602)⁻¹ := h

lemma exp_neg_30602_ub : Real.exp (-3.0602) ≤ 0.0468785 := by
  rw [show (-3.0602:ℝ) = -(3.0602) by norm_num, Real.exp_neg]
  have h := inv_anti₀ (show (0:ℝ) < 21.33179 by norm_num) exp_30602_lb
  calc (Real.exp 3.0602)⁻¹ ≤ (21.33179:ℝ)⁻¹ := h
  _ ≤ 0.0468785 := by norm_num

lemma exp_a_lb : (1.59802 : ℝ) ≤ Real.exp 0.468781 := by
  have h := Real.sum_le_exp_of_nonneg (show (0:ℝ) ≤ 0.468781 by norm_num) 6
  simp only [Finset.sum_range_succ, Finset.sum_range_zero] at h
  norm_num [Nat.factorial] at h
  linarith

lemma exp_b_ub : Real.exp 0.468785 ≤ 1.59807 := by
  have h := Real.exp_bound' (show (0:ℝ) ≤ 0.468785 by norm_num)
    (show (0.468785:ℝ) ≤ 1 by norm_num) (show 0 < 6 by norm_num)
  simp only [Finset.sum_range_succ, Finset.sum_range_zero] at h
  norm_num [Nat.factorial] at h
  linarith

lemma exp_neg_a_ub : Real.exp (-0.468781) ≤ 0.62578 := by
  rw [show (-0.468781:ℝ) = -(0.468781) by norm_num, Real.exp_neg]
  have h := inv_anti₀ (show (0:ℝ) < 1.59802 by norm_num) exp_a_lb
  calc (Real.exp 0.468781)⁻¹ ≤ (1.59802:ℝ)⁻¹ := h
  _ ≤ 0.62578 := by norm_num

lemma exp_neg_b_lb : (0.62574 : ℝ) ≤ Real.exp (-0.468785) := by
  rw [show (-0.468785:ℝ) = -(0.468785) by norm_num, Real.exp_neg]
  have h := inv_anti₀ (Real.exp_pos 0.468785) exp_b_ub
  calc (0.62574:ℝ) ≤ (1.59807:ℝ)⁻¹ := by norm_num
  _ ≤ (Real.exp 0.468785)⁻¹ := h

lemma lp_profileB : lp profileB = -3.0602 := by
  simp [lp, profileB, egfr_lt30_coef, egfr_30_60_coef]
  norm_num

lemma risk_B_bounds :
    (37.42 : ℝ) ≤ risk_percent profileB ∧ risk_percent profileB ≤ 37.43 := by
  have hlp : ((lp profileB : ℚ) : ℝ) = -3.0602 := by
    rw [lp_profileB]; norm_num
  unfold risk_percent
  rw [hlp]
  have hE1 := exp_neg_30602_lb
  have hE2 := exp_neg_30602_ub
  have h1 : Real.exp (-Real.exp (-3.0602) * 10) ≤ Real.exp (-0.468781) :=
    Real.exp_le_exp.mpr (by nlinarith)
  have h2 : Real.exp (-0.468785) ≤ Real.exp (-Real.exp (-3.0602) * 10) :=
    Real.exp_le_exp.mpr (by nlinarith)
  have h3 := exp_neg_a_ub
  have h4 := exp_neg_b_lb
  constructor <;> nlinarith

lemma calc_B : calculate_smart2_risk profileB = 37.4 := by
  obtain ⟨h1, h2⟩ := risk_B_bounds
  unfold calculate_smart2_risk round1R
  have hfloor : ⌊risk_percent profileB * 10 + 1 / 2⌋ = (374 : ℤ) := by
    rw [Int.floor_eq_iff]
    constructor
    · push_cast
      nlinarith
    · push_cast
      nlinarith
  rw [hfloor]
  norm_num

/-! ### General bounds on the engine outputs -/

lemma risk_nonneg (p : Profile) : (0 : ℝ) ≤ risk_percent p := by
  unfold risk_percent
  have h : Real.exp (-Real.exp ((lp p : ℝ)) * 10) ≤ 1 := by
    have hp := Real.exp_pos ((lp p : ℚ) : ℝ)
    have := Real.exp_le_exp.mpr (show -Real.exp ((lp p : ℝ)) * 10 ≤ 0 by nlinarith)
    rwa [Real.exp_zero] at this
  linarith

lemma risk_lt_100 (p : Profile) : risk_percent p < 100 := by
  unfold risk_percent
  have h := Real.exp_pos (-Real.exp ((lp p : ℚ) : ℝ) * 10)
  linarith

lemma calc_nonneg (p : Profile) : (0 : ℚ) ≤ calculate_smart2_risk p := by
  unfold calculate_smart2_risk round1R
  have h : (0 : ℤ) ≤ ⌊risk_percent p * 10 + 1 / 2⌋ := by
    rw [Int.floor_nonneg]
    have := risk_nonneg p
    nlinarith
  positivity

lemma calc_le_100 (p : Profile) : calculate_smart2_risk p ≤ 100 := by
  unfold calculate_smart2_risk round1R
  have h : ⌊risk_percent p * 10 + 1 / 2⌋ < (1001 : ℤ) := by
    rw [Int.floor_lt]
    have := risk_lt_100 p
    push_cast
    nlinarith
  have h2 : ⌊risk_percent p * 10 + 1 / 2⌋ ≤ (1000 : ℤ) := by omega
  have h3 : ((⌊risk_percent p * 10 + 1 / 2⌋ : ℤ) : ℚ) ≤ 1000 := by exact_mod_cast h2
  linarith

lemma rr_bounds (plan : Plan) : 0 ≤ rr_reduction plan ∧ rr_reduction plan ≤ 71 := by
  rcases plan with ⟨s, e, pk, t⟩
  cases s <;> cases e <;> cases pk <;>
    by_cases h : t < 130 <;>
      simp [rr_reduction, statin_contrib, pcsk9_contrib, h] <;> norm_num

lemma floorq (a : ℚ) (z : ℤ) (h1 : (z : ℚ) ≤ a) (h2 : a < z + 1) : ⌊a⌋ = z :=
  Int.floor_eq_iff.mpr ⟨h1, by exact_mod_cast h2⟩

lemma lp_profile25 : lp profile25 = -10.1284 := by
  simp [lp, profile25, egfr_lt30_coef, egfr_30_60_coef]
  norm_num

lemma exp_10_ge : (20589 : ℝ) ≤ Real.exp 10 := by
  have h1 : ((2.7 : ℝ)) ^ 10 ≤ Real.exp 1 ^ 10 :=
    pow_le_pow_left₀ (by norm_num) (by linarith [Real.exp_one_gt_d9]) 10
  have h2 : Real.exp 1 ^ 10 = Real.exp 10 := by
    rw [← Real.exp_nat_mul]
    norm_num
  calc (20589 : ℝ) ≤ 2.7 ^ 10 := by norm_num
  _ ≤ Real.exp 1 ^ 10 := h1
  _ = Real.exp 10 := h2

lemma calc_25 : calculate_smart2_risk profile25 = 0 := by
  have hlp : ((lp profile25 : ℚ) : ℝ) = -10.1284 := by
    rw [lp_profile25]
    norm_num
  have hE_ub : Real.exp (-10.1284 : ℝ) ≤ (20589 : ℝ)⁻¹ := by
    have h1 : Real.exp (-10.1284 : ℝ) ≤ Real.exp (-10) :=
      Real.exp_le_exp.mpr (by norm_num)
    have h2 : Real.exp (-10 : ℝ) = (Real.exp 10)⁻¹ := by
      rw [show (-10 : ℝ) = -(10) by norm_num, Real.exp_neg]
    have h3 := inv_anti₀ (show (0 : ℝ) < 20589 by norm_num) exp_10_ge
    rw [h2] at h1
    exact h1.trans h3
  have hrisk_lt : risk_percent profile25 < 1 / 20 := by
    unfold risk_percent
    rw [hlp]
    have hE_pos : (0 : ℝ) < Real.exp (-10.1284 : ℝ) := Real.exp_pos _
    have hbound : 1 - Real.exp (-Real.exp (-10.1284 : ℝ) * 10) ≤
        Real.exp (-10.1284 : ℝ) * 10 := by
      have := Real.add_one_le_exp (-Real.exp (-10.1284 : ℝ) * 10)
      linarith
    nlinarith
  have hrisk_0 := risk_nonneg profile25
  unfold calculate_smart2_risk round1R
  have hfloor : ⌊risk_percent profile25 * 10 + 1 / 2⌋ = (0 : ℤ) := by
    rw [Int.floor_eq_iff]
    constructor
    · push_cast
      nlinarith
    · push_cast
      nlinarith
  rw [hfloor]
  norm_num

/-! ### The claims -/

/-- C1 counterexample: at ldl = 1.5 (< 1.8) with the PCSK9i flag set, the
engine's PCSK9 term contributes 15 to the relative risk reduction, not 0:
only the widget is disabled (line 139); `rr_reduction` never checks ldl. -/
theorem C1_counterexample :
    profileLowLdl.ldl < 1.8 ∧ planPcsk9Only.pcsk9i = true ∧
      pcsk9_contrib planPcsk9Only = 15 ∧ rr_reduction planPcsk9Only = 15 := by
  refine ⟨by norm_num [profileLowLdl], rfl, rfl, ?_⟩
  norm_num [rr_reduction, planPcsk9Only, statin_contrib, pcsk9_contrib]

/-- C1 (amended): for every profile with ldl < 1.8 and every plan with
pcsk9Inhibitor = true, the PCSK9 term still contributes exactly +15 to the
computed RRR (the engine does not enforce the ldl ≥ 1.8 precondition; it is
enforced only by the disabled input widget); for ldl ≥ 1.8 the +15 part of
the original claim is likewise covered, since the contribution never
depends on ldl. -/
theorem C1_pcsk9_unconditional (p : Profile) (plan : Plan)
    (hldl : p.ldl < 1.8) (hpk : plan.pcsk9i = true) :
    pcsk9_contrib plan = 15 ∧
      rr_reduction plan =
        rr_reduction (Plan.mk plan.statin plan.ezetimibe false plan.sbp_target) + 15 := by
  rcases plan with ⟨s, e, pk, t⟩
  cases hpk
  constructor
  · rfl
  · simp [rr_reduction, pcsk9_contrib]
    ring

/-- C1 witness: the amended statement at the concrete low-ldl profile and
PCSK9i-only plan. -/
theorem C1_witness :
    pcsk9_contrib planPcsk9Only = 15 ∧
      rr_reduction planPcsk9Only =
        rr_reduction (Plan.mk Statin.none false false 200) + 15 :=
  C1_pcsk9_unconditional profileLowLdl planPcsk9Only (by norm_num [profileLowLdl]) rfl

/-- C2: Scenario B (age 80, male, diabetic, smoker, egfr 25, 3 vascular beds,
ldl 5.0, sbp 180; high statin, ezetimibe, PCSK9i, target SBP below 130) gives
baseline 37.4, RRR 71, reported projected risk 10.8, and tier Moderate — while
the baseline alone would classify as Very High, i.e. the tier is decided by
the projected risk. -/
theorem C2_scenarioB (t : ℚ) (ht : t < 130) :
    calculate_smart2_risk profileB = 37.4 ∧
      rr_reduction (planB t) = 71 ∧
      round1q (projected_risk 37.4 (planB t)) = 10.8 ∧
      classify (projected_risk 37.4 (planB t)) = Tier.moderate ∧
      classify (calculate_smart2_risk profileB) = Tier.veryHigh := by
  have hrr : rr_reduction (planB t) = 71 := by
    simp [rr_reduction, planB, statin_contrib, pcsk9_contrib, ht]
    norm_num
  have hproj : projected_risk 37.4 (planB t) = 10.846 := by
    rw [projected_risk, hrr]
    norm_num
  refine ⟨calc_B, hrr, ?_, ?_, ?_⟩
  · rw [hproj]
    unfold round1q
    rw [show (10.846 : ℚ) * 10 + 1 / 2 = 108.96 by norm_num,
      floorq 108.96 108 (by norm_num) (by norm_num)]
    norm_num
  · rw [hproj]
    unfold classify classify_recs
    rw [if_neg (by norm_num), if_neg (by norm_num)]
  · rw [calc_B]
    unfold classify classify_recs
    rw [if_pos (by norm_num)]

/-- C2 witness: the scenario with the slider at 129 mmHg (below 130). -/
theorem C2_witness :
    (129 : ℚ) < 130 ∧
      (calculate_smart2_risk profileB = 37.4 ∧
        rr_reduction (planB 129) = 71 ∧
        round1q (projected_risk 37.4 (planB 129)) = 10.8 ∧
        classify (projected_risk 37.4 (planB 129)) = Tier.moderate ∧
        classify (calculate_smart2_risk profileB) = Tier.veryHigh) :=
  ⟨by norm_num, C2_scenarioB 129 (by norm_num)⟩

/-- C3 counterexample: the claimed composition (PCSK9i gated by ldl ≥ 1.8,
clamped) yields 0 for the PCSK9i-only plan at ldl = 1.5, but the code's
`rr_reduction` yields 15 — the claimed formula does not match the code. -/
theorem C3_counterexample :
    rrr_claimed planPcsk9Only 1.5 = 0 ∧ rr_reduction planPcsk9Only = 15 ∧
      rrr_claimed planPcsk9Only 1.5 ≠ rr_reduction planPcsk9Only := by
  have h1 : rrr_claimed planPcsk9Only 1.5 = 0 := by
    norm_num [rrr_claimed, planPcsk9Only, statin_contrib]
  have h2 : rr_reduction planPcsk9Only = 15 := by
    norm_num [rr_reduction, planPcsk9Only, statin_contrib, pcsk9_contrib]
  refine ⟨h1, h2, ?_⟩
  rw [h1, h2]
  norm_num

/-- C3 (amended): the composite RRR is the additive sum of +25/+35 for
moderate/high statin, +6 for ezetimibe, +15 for PCSK9i REGARDLESS of ldl, and
+15 for target SBP < 130; the code applies no clamp, but the total always
equals its clamp into [0,100] because it lies in [0,71] — so no representable
plan's nominal sum exceeds 100 and the exceeding case of the claim is vacuous. -/
theorem C3_rrr_additive (plan : Plan) :
    rr_reduction plan =
        statin_contrib plan.statin + (if plan.ezetimibe then 6 else 0)
          + (if plan.pcsk9i then 15 else 0)
          + (if plan.sbp_target < 130 then 15 else 0) ∧
      rrr_amended plan = rr_reduction plan ∧
      0 ≤ rr_reduction plan ∧ rr_reduction plan ≤ 71 := by
  obtain ⟨h0, h71⟩ := rr_bounds plan
  refine ⟨rfl, ?_, h0, h71⟩
  unfold rrr_amended
  have hsum : statin_contrib plan.statin + (if plan.ezetimibe then 6 else 0)
      + (if plan.pcsk9i then 15 else 0)
      + (if plan.sbp_target < 130 then 15 else 0) = rr_reduction plan := rfl
  rw [hsum, max_eq_right h0, min_eq_right (by linarith)]

/-- C4: for every baseline b in [0,100] expressible to one decimal (every
engine baseline is) and the RRR of any plan, rounding b*(1-r/100) to one
decimal and clamping into [0,b] equals the projected risk the app reports
(line 186's `.1f` rendering of line 171's product); the clamp never alters
the rounded value. -/
theorem C4_projected (b : ℚ) (plan : Plan) (hb0 : 0 ≤ b) (hb1 : b ≤ 100)
    (hmult : ∃ k : ℤ, b = k / 10) :
    projected_claimed b (rr_reduction plan) = projected_display b plan := by
  obtain ⟨k, hk⟩ := hmult
  obtain ⟨hr0, hr71⟩ := rr_bounds plan
  have hx0 : 0 ≤ b * (1 - rr_reduction plan / 100) := by nlinarith
  have hxb : b * (1 - rr_reduction plan / 100) ≤ b := by nlinarith
  have hfl0 : (0 : ℤ) ≤ ⌊b * (1 - rr_reduction plan / 100) * 10 + 1 / 2⌋ :=
    Int.floor_nonneg.mpr (by nlinarith)
  have hflk : ⌊b * (1 - rr_reduction plan / 100) * 10 + 1 / 2⌋ ≤ k := by
    have h1 : ⌊b * (1 - rr_reduction plan / 100) * 10 + 1 / 2⌋ < k + 1 := by
      rw [Int.floor_lt]
      push_cast
      nlinarith [hk]
    omega
  have h0r : (0 : ℚ) ≤ round1q (b * (1 - rr_reduction plan / 100)) := by
    unfold round1q
    have h : (0 : ℚ) ≤ ((⌊b * (1 - rr_reduction plan / 100) * 10 + 1 / 2⌋ : ℤ) : ℚ) := by
      exact_mod_cast hfl0
    linarith
  have hrb : round1q (b * (1 - rr_reduction plan / 100)) ≤ b := by
    unfold round1q
    have h : ((⌊b * (1 - rr_reduction plan / 100) * 10 + 1 / 2⌋ : ℤ) : ℚ) ≤ (k : ℚ) := by
      exact_mod_cast hflk
    linarith [hk]
  unfold projected_claimed projected_display projected_risk
  rw [min_eq_left hrb, max_eq_right h0r]

/-- C4 witness: baseline 37.4 with the PCSK9i-only plan. -/
theorem C4_witness :
    projected_claimed 37.4 (rr_reduction planPcsk9Only) =
      projected_display 37.4 planPcsk9Only :=
  C4_projected 37.4 planPcsk9Only (by norm_num) (by norm_num) ⟨374, by norm_num⟩

/-- C5: the classifier ladder uses strict thresholds top-down — projected risk
above 30 is Very High, above 20 and at most 30 is High, at most 20 is
Moderate, each with its ordered recommendation list; at the boundaries, 30
falls into High, 30.1 Very High, 20 Moderate, 20.1 High. -/
theorem C5_classifier (pr : ℚ) :
    (30 < pr → classify_recs pr = (Tier.veryHigh, very_high_recs)) ∧
      (20 < pr → pr ≤ 30 → classify_recs pr = (Tier.high, high_recs)) ∧
      (pr ≤ 20 → classify_recs pr = (Tier.moderate, moderate_recs)) ∧
      classify_recs 30 = (Tier.high, high_recs) ∧
      classify_recs 30.1 = (Tier.veryHigh, very_high_recs) ∧
      classify_recs 20 = (Tier.moderate, moderate_recs) ∧
      classify_recs 20.1 = (Tier.high, high_recs) := by
  refine ⟨fun h => ?_, fun h1 h2 => ?_, fun h => ?_, ?_, ?_, ?_, ?_⟩
  · unfold classify_recs
    rw [if_pos h]
  · unfold classify_recs
    rw [if_neg (not_lt.mpr h2), if_pos h1]
  · unfold classify_recs
    rw [if_neg (not_lt.mpr (by linarith)), if_neg (not_lt.mpr h)]
  · unfold classify_recs
    rw [if_neg (by norm_num), if_pos (by norm_num)]
  · unfold classify_recs
    rw [if_pos (by norm_num)]
  · unfold classify_recs
    rw [if_neg (by norm_num), if_neg (by norm_num)]
  · unfold classify_recs
    rw [if_neg (by norm_num), if_pos (by norm_num)]

/-- C5 witness: a projected risk of 40 classifies as Very High with its list. -/
theorem C5_witness : classify_recs 40 = (Tier.veryHigh, very_high_recs) :=
  (C5_classifier 40).1 (by norm_num)

/-- C6 counterexample: age = 25 is outside every documented domain bound, yet
the code raises no error and the computation completes: the linear predictor
is the well-defined value -10.1284 and the engine returns the complete rounded
risk 0.0 instead of failing. -/
theorem C6_counterexample :
    ¬ validate profile25 ∧ lp profile25 = -10.1284 ∧
      calculate_smart2_risk profile25 = 0 := by
  refine ⟨?_, lp_profile25, calc_25⟩
  intro h
  have := h.1
  norm_num [profile25] at this

/-- C6 (amended): the script contains no ValidationError; out-of-domain values
are excluded only by the input-widget bounds (age 30-90 on line 95, ldl
0.5-6.0 on line 115), whose boundary values 30 and 6.0 are accepted, and the
engine itself is total: even for the out-of-domain age 25 it computes the
complete result 0.0 rather than raising. -/
theorem C6_no_validation :
    ¬ age_widget_ok 25 ∧ ¬ ldl_widget_ok 7 ∧ age_widget_ok 30 ∧ ldl_widget_ok 6 ∧
      lp profile25 = -10.1284 ∧ calculate_smart2_risk profile25 = 0 := by
  refine ⟨?_, ?_, ?_, ?_, lp_profile25, calc_25⟩
  · intro h
    have := h.1
    norm_num at this
  · intro h
    have := h.2
    norm_num at this
  · exact ⟨by norm_num, by norm_num⟩
  · exact ⟨by norm_num, by norm_num⟩

/-- C7: for every valid profile and every plan, the outputs satisfy
0 ≤ projected ≤ baseline ≤ 100 and 0 ≤ RRR ≤ 100. -/
theorem C7_bounds (p : Profile) (plan : Plan) (hv : validate p) :
    0 ≤ projected_risk (calculate_smart2_risk p) plan ∧
      projected_risk (calculate_smart2_risk p) plan ≤ calculate_smart2_risk p ∧
      0 ≤ calculate_smart2_risk p ∧ calculate_smart2_risk p ≤ 100 ∧
      0 ≤ rr_reduction plan ∧ rr_reduction plan ≤ 100 := by
  have hb0 := calc_nonneg p
  have hb1 := calc_le_100 p
  obtain ⟨hr0, hr71⟩ := rr_bounds plan
  refine ⟨?_, ?_, hb0, hb1, hr0, by linarith⟩
  · unfold projected_risk
    nlinarith
  · unfold projected_risk
    nlinarith

/-- C7 witness: the bounds at the Scenario B profile and plan. -/
theorem C7_witness :
    0 ≤ projected_risk (calculate_smart2_risk profileB) (planB 129) ∧
      projected_risk (calculate_smart2_risk profileB) (planB 129) ≤
        calculate_smart2_risk profileB ∧
      0 ≤ calculate_smart2_risk profileB ∧ calculate_smart2_risk profileB ≤ 100 ∧
      0 ≤ rr_reduction (planB 129) ∧ rr_reduction (planB 129) ≤ 100 :=
  C7_bounds profileB (planB 129)
    ⟨by norm_num [profileB], by norm_num [profileB], by norm_num [profileB],
     by norm_num [profileB], by norm_num [profileB], by norm_num [profileB],
     by norm_num [profileB], by norm_num [profileB], by norm_num [profileB]⟩

/-- C8: over the slider range 15-120, the two eGFR coefficients of the code
sum to the spec's mutually exclusive piecewise `egfrBand`, and are never both
nonzero. -/
theorem C8_egfr_bands (e : ℚ) (h1 : 15 ≤ e) (h2 : e ≤ 120) :
    egfr_lt30_coef e + egfr_30_60_coef e = egfrBand e ∧
      (egfr_lt30_coef e = 0 ∨ egfr_30_60_coef e = 0) := by
  unfold egfr_lt30_coef egfr_30_60_coef egfrBand
  rcases lt_or_le e 30 with h30 | h30
  · have hn : ¬(30 ≤ e ∧ e < 60) := fun hc => absurd h30 (not_lt.mpr hc.1)
    rw [if_pos h30, if_neg hn, if_pos h30]
    exact ⟨by ring, Or.inr rfl⟩
  · have hn30 : ¬ e < 30 := not_lt.mpr h30
    rcases lt_or_le e 60 with h60 | h60
    · rw [if_neg hn30, if_pos ⟨h30, h60⟩, if_neg hn30, if_pos h60]
      exact ⟨by ring, Or.inl rfl⟩
    · have hn60 : ¬ e < 60 := not_lt.mpr h60
      have hn : ¬(30 ≤ e ∧ e < 60) := fun hc => absurd hc.2 hn60
      rw [if_neg hn30, if_neg hn, if_neg hn30, if_neg hn60]
      exact ⟨by ring, Or.inl rfl⟩

/-- C8 witness: egfr = 25 takes only the below-30 band. -/
theorem C8_witness :
    egfr_lt30_coef 25 + egfr_30_60_coef 25 = egfrBand 25 ∧
      (egfr_lt30_coef 25 = 0 ∨ egfr_30_60_coef 25 = 0) :=
  C8_egfr_bands 25 (by norm_num) (by norm_num)

/-- C9: every representable plan's RRR total is at most 71, hence strictly
below 100 (the clamp-at-100 case is unreachable), and the projected risk is
at least 29% of any nonnegative baseline. -/
theorem C9_rrr_max (plan : Plan) (b : ℚ) (hb : 0 ≤ b) :
    rr_reduction plan ≤ 71 ∧ rr_reduction plan < 100 ∧
      29 / 100 * b ≤ projected_risk b plan := by
  obtain ⟨hr0, hr71⟩ := rr_bounds plan
  refine ⟨hr71, by linarith, ?_⟩
  unfold projected_risk
  nlinarith

/-- C9 witness: the maximal plan at baseline 37.4. -/
theorem C9_witness :
    rr_reduction (planB 129) ≤ 71 ∧ rr_reduction (planB 129) < 100 ∧
      29 / 100 * 37.4 ≤ projected_risk 37.4 (planB 129) :=
  C9_rrr_max (planB 129) 37.4 (by norm_num)

/-- C10: line 105 of the shipped source opens one more round parenthesis than
it closes (net count 1, not 0), so it cannot end a syntactically complete
Python statement; under Python's grammar the unclosed call forces implicit
continuation into line 106, where the juxtaposed name after the closing
parenthesis is invalid — CPython rejects the file with a SyntaxError at
compile/load time, before any input is read or any risk computed. -/
theorem C10_line105_unbalanced :
    netParens source_line_105 = 1 ∧ netParens source_line_105 ≠ 0 := by
  have h : netParens source_line_105 = 1 := rfl
  refine ⟨h, ?_⟩
  rw [h]
  norm_num

end CVD
